import Mathlib

/-!
Verification of the judini-python SDK client (`src/judini/codegpt.py`) against
its natural-language specification.

The repository ships one source file, `codegpt.py`.  Its chat-completion
response normalisation delegates to `handle_stream` / `handle_non_stream`
from `judini.utils`, a module that is not part of the provided sources, so the
stream decoder below is modelled from the specification's words; everything
else (argument validation, request payload construction, header handling,
`update_agent` truthiness filtering) is embedded directly from `codegpt.py`.

Python `dict` objects become association lists `List (String × α)` with
insertion-order semantics; JSON documents become the inductive type `Json`;
HTTP traffic becomes an explicit oracle `net : Request → HttpResponse` passed
to each operation, so "raised before any network call" is expressed as
independence of the result from the oracle.
-/

set_option autoImplicit false

namespace Judini

/-- A JSON value, as produced by Python's `json` module. -/
inductive Json where
  | null
  | bool (b : Bool)
  | num (n : Int)
  | str (s : String)
  | arr (xs : List Json)
  | obj (fields : List (String × Json))

/-- First-match association lookup on the fields of a JSON object,
mirroring Python `d[k]` / `d.get(k)` on a parsed JSON dict. -/
def jlookup (fields : List (String × Json)) (k : String) : Option Json :=
  match fields with
  | [] => none
  | (k', v) :: rest => if k' = k then some v else jlookup rest k

/-- Modelled from the spec: the textual delta of a decoded payload.  The wire
format example in the spec carries the fragment under the key `"text"`
(`data: \x7b"text":"Hel"\x7d`), so the "textual field" / "answer field" of a
payload is its `"text"` entry when that entry is a JSON string. -/
def getText (j : Json) : Option String :=
  match j with
  | .obj fields =>
    match jlookup fields "text" with
    | some (.str t) => some t
    | _ => none
  | _ => none

/-- Modelled from the spec: the recognised in-band error marker.  A payload
signals an error event when it carries an `"error"` field holding the
server-supplied error message as a JSON string. -/
def getErrMsg (j : Json) : Option String :=
  match j with
  | .obj fields =>
    match jlookup fields "error" with
    | some (.str m) => some m
    | _ => none
  | _ => none

/-- The value carried by the `data:` field of one server-sent-event frame,
after the transport has split the body into frames: the literal terminal
marker `[DONE]`, a successfully JSON-decoded payload, or a payload that is
not valid JSON (kept with its raw text). -/
inductive DataValue where
  | doneMarker
  | json (j : Json)
  | invalid (raw : String)

/-- The tagged classification of one frame, as §4.1 of the spec prescribes:
content, error, done, or unrecognised/malformed. -/
inductive Payload where
  | done
  | err (msg : String)
  | content (j : Json) (text : String)
  | malformed

/-- Modelled from the spec: classify one `data:` value.  An error marker wins
first; a payload whose expected key is missing (or whose raw text is not
JSON) is malformed and will be skipped. -/
def classifyData (v : DataValue) : Payload :=
  match v with
  | .doneMarker => .done
  | .invalid _ => .malformed
  | .json j =>
    match getErrMsg j with
    | some m => .err m
    | none =>
      match getText j with
      | some t => .content j t
      | none => .malformed

/-- The target format requested by the caller, after validation. -/
inductive Format where
  | text
  | json

/-- One unit yielded to a streaming consumer: a text fragment
(`format=text`) or a structured fragment (`format=json`). -/
inductive Chunk where
  | text (s : String)
  | json (j : Json)

/-- How a stream ended: normally (done marker or exhaustion), or failed with
the server-supplied message of an in-band error frame (`StreamError`). -/
inductive StreamOutcome where
  | ok
  | failed (msg : String)

/-- The chunk produced for one content frame. -/
def chunkOf (fmt : Format) (j : Json) (t : String) : Chunk :=
  match fmt with
  | .text => .text t
  | .json => .json j

/-- Modelled from the spec: streaming-mode decoding (`handle_stream` of the
absent `judini.utils`).  Frames are processed strictly in arrival order; a
done marker ends the sequence normally, an error frame terminates it with
the server-supplied message and no further chunk, a content frame yields one
chunk shaped by `fmt`, and a malformed frame is skipped.  The lazily
produced sequence is materialised as the list of yielded chunks paired with
the terminal outcome. -/
def handle_stream (fmt : Format) (frames : List DataValue) :
    List Chunk × StreamOutcome :=
  match frames with
  | [] => ([], .ok)
  | v :: rest =>
    match classifyData v with
    | .done => ([], .ok)
    | .err m => ([], .failed m)
    | .malformed => handle_stream fmt rest
    | .content j t =>
      let tail := handle_stream fmt rest
      (chunkOf fmt j t :: tail.1, tail.2)

/-- The fully assembled non-streaming result. -/
inductive Aggregate where
  | text (s : String)
  | json (j : Json)

/-- The error taxonomy of §7 of the spec, as raised by the client. -/
inductive JudiniError where
  | validation (msg : String)
  | transport (status : Nat) (body : String)
  | decode (raw : String)
  | fileNotFound (path : String)

/-- Modelled from the spec: non-streaming decoding (`handle_non_stream` of
the absent `judini.utils`).  `raw` is the raw body text and `parsed` the
result of the collaborator's JSON parse (`none` when the body is not valid
JSON).  With `format=json` the full parsed structure is returned unchanged;
with `format=text` the textual answer field is returned as a plain string; a
parse failure or an absent answer field fails with a `DecodeError` carrying
the raw body. -/
def handle_non_stream (raw : String) (parsed : Option Json) (fmt : Format) :
    Except JudiniError Aggregate :=
  match parsed with
  | none => .error (.decode raw)
  | some j =>
    match fmt with
    | .json => .ok (.json j)
    | .text =>
      match getText j with
      | some t => .ok (.text t)
      | none => .error (.decode raw)

/-- One chat message, `codegpt.py` line 47: a dict with a `role` and a
`content`. -/
structure ChatMessage where
  role : String
  content : String
deriving DecidableEq

/-- JSON serialisation of one chat message, as `json.dumps` renders the
caller's dict. -/
def msgJson (m : ChatMessage) : Json :=
  .obj [("role", .str m.role), ("content", .str m.content)]

/-- The client's mutable header state, `self.headers` of `CodeGPTPlus`. -/
structure ClientState where
  headers : List (String × String)

/-- Python dict assignment `d[k] = v` on an insertion-ordered dict: replace
the value in place when the key exists, otherwise append. -/
def dictInsert (d : List (String × String)) (k v : String) :
    List (String × String) :=
  if d.any (fun p => p.1 == k) then
    d.map (fun p => if p.1 == k then (k, v) else p)
  else d ++ [(k, v)]

/-- Python `del d[k]` on an insertion-ordered dict (the key is present in
every call site reached by the code). -/
def dictErase (d : List (String × String)) (k : String) :
    List (String × String) :=
  d.filter (fun p => p.1 != k)

/-- Module constant `base_url`, `codegpt.py` line 9. -/
def base_url : String := "https://api-beta.codegpt.co/api/v1"

/-- Constructor `CodeGPTPlus.__init__`, lines 20-28: fixed `Content-Type` and
`Authorization` headers, plus `CodeGPT-Org-Id` when a truthy `org_id` is
supplied. -/
def mkClient (api_key : String) (org_id : Option String) : ClientState :=
  let headers := [("Content-Type", "application/json"),
                  ("Authorization", "Bearer " ++ api_key)]
  match org_id with
  | some o => if o ≠ "" then { headers := dictInsert headers "CodeGPT-Org-Id" o }
              else { headers := headers }
  | none => { headers := headers }

/-- An HTTP request as handed to the transport collaborator: URL, headers,
and the JSON payload (the object passed to `json.dumps`). -/
structure HttpRequest where
  url : String
  headers : List (String × String)
  payloadFields : List (String × Json)
  stream : Bool

/-- An HTTP response from the transport collaborator: status code, raw body
text, the body's JSON parse (`none` when invalid), and the body split into
server-sent-event `data:` values for streaming consumption. -/
structure HttpResponse where
  status : Nat
  body : String
  parsed : Option Json
  frames : List DataValue

/-- The chat-completion request payload, `codegpt.py` lines 74-79: the
serialised `format` field is the constant `"json"`; the caller's `format`
argument is not written to the wire. -/
def chatPayloadFields (agent_id : String) (messages : List ChatMessage)
    (stream : Bool) (format : String) : List (String × Json) :=
  [("agentId", .str agent_id),
   ("messages", .arr (messages.map msgJson)),
   ("stream", .bool stream),
   ("format", .str "json")]

/-- The full chat-completion request, lines 71-82: the headers used are a
copy of `self.headers` with `media_type` set; `self.headers` itself is left
alone. -/
def chatRequestOf (st : ClientState) (agent_id : String)
    (messages : List ChatMessage) (stream : Bool) (format : String) :
    HttpRequest :=
  { url := base_url ++ "/chat/completions",
    headers := dictInsert st.headers "media_type" "text/event-stream",
    payloadFields := chatPayloadFields agent_id messages stream format,
    stream := stream }

/-- The convention of lines 86-89: the validated `format` string selects the
decoding mode. -/
def formatOf (format : String) : Format :=
  if format = "json" then .json else .text

/-- What a chat-completion call hands back on success: the materialised
stream (chunks plus terminal outcome) or the aggregate value. -/
inductive ChatOutcome where
  | streamed (chunks : List Chunk) (outcome : StreamOutcome)
  | aggregate (a : Aggregate)

/-- Method `CodeGPTPlus.chat_completion`, lines 36-89.  Validation happens before
the request is built (lines 62-69); the network is the oracle `net`; a
non-200 status raises carrying the status code and raw body text (lines
83-84); otherwise the body is decoded by the streaming or non-streaming
decoder (lines 86-89).  The second component is `self.headers` after the
call. -/
def chat_completion (st : ClientState) (agent_id : String)
    (messages : List ChatMessage) (stream : Bool) (format : String)
    (net : HttpRequest → HttpResponse) :
    Except JudiniError ChatOutcome × ClientState :=
  if messages.length = 0 then
    (.error (.validation "JUDINI: messages array should not be empty"), st)
  else if agent_id = "" then
    (.error (.validation "JUDINI: agent_id should not be empty"), st)
  else if ¬ (format = "json" ∨ format = "text") then
    (.error (.validation "JUDINI: format should be either json or text"), st)
  else
    let resp := net (chatRequestOf st agent_id messages stream format)
    if resp.status ≠ 200 then
      (.error (.transport resp.status resp.body), st)
    else if stream then
      (.ok (.streamed (handle_stream (formatOf format) resp.frames).1
                      (handle_stream (formatOf format) resp.frames).2), st)
    else
      ((handle_non_stream resp.body resp.parsed (formatOf format)).map .aggregate, st)

/-- Python truthiness of an optional string: `None` and `""` are falsy. -/
def pyTruthyStr (v : Option String) : Bool :=
  match v with
  | none => false
  | some s => s != ""

/-- Python truthiness of an optional number: `None` and `0` are falsy. -/
def pyTruthyInt (v : Option Int) : Bool :=
  match v with
  | none => false
  | some n => n != 0

/-- Python truthiness of an optional bool: `None` and `False` are falsy. -/
def pyTruthyBool (v : Option Bool) : Bool :=
  match v with
  | none => false
  | some b => b

/-- One optional string field of the `update_agent` payload: included only
when truthy (`if name: payload[...] = name`). -/
def strField (key : String) (v : Option String) : List (String × Json) :=
  match v with
  | some s => if s != "" then [(key, .str s)] else []
  | none => []

/-- One optional numeric field of the `update_agent` payload: included only
when truthy. -/
def intField (key : String) (v : Option Int) : List (String × Json) :=
  match v with
  | some n => if n != 0 then [(key, .num n)] else []
  | none => []

/-- One optional boolean field of the `update_agent` payload: included only
when truthy, so `False` is omitted. -/
def boolField (key : String) (v : Option Bool) : List (String × Json) :=
  match v with
  | some b => if b then [(key, .bool b)] else []
  | none => []

/-- The `update_agent` payload, `codegpt.py` lines 237-253: each optional
parameter is added only when Python finds it truthy. -/
def update_agent_payload (name model prompt welcome : Option String)
    (topk temperature : Option Int) ( is_public : Option Bool)
    (pincode : Option String) : List (String × Json) :=
  strField "name" name ++ strField "model" model ++ strField "prompt" prompt
    ++ strField "welcome" welcome ++ intField "topk" topk
    ++ intField "temperature" temperature ++ boolField "is_public" is_public
    ++ strField "pincode" pincode

/-- Method `CodeGPTPlus.update_agent`, lines 195-266: empty `agent_id` and empty
payload each raise before the network oracle is consulted; the success value
is the response's parsed JSON (the `Agent(**response.json())` construction,
whose class lives in the absent `judini.types`, is modelled as the parsed
record itself). -/
def update_agent (st : ClientState) (agent_id : String)
    (name model prompt welcome : Option String)
    (topk temperature : Option Int) ( is_public : Option Bool)
    (pincode : Option String) (net : HttpRequest → HttpResponse) :
    Except JudiniError Json × ClientState :=
  if agent_id = "" then
    (.error (.validation "JUDINI: agent_id should not be empty"), st)
  else
    let payload := update_agent_payload name model prompt welcome topk
      temperature is_public pincode
    if payload.isEmpty then
      (.error (.validation "JUDINI: At least one parameter should be provided"), st)
    else
      let resp := net { url := base_url ++ "/agent/" ++ agent_id,
                        headers := st.headers,
                        payloadFields := payload,
                        stream := false }
      if resp.status ≠ 200 then
        (.error (.transport resp.status resp.body), st)
      else
        match resp.parsed with
        | some j => (.ok j, st)
        | none => (.error (.decode resp.body), st)

/-- The document-upload request, lines 385-391: the headers used are a copy
of `self.headers` with `Content-Type` deleted; `self.headers` itself is left
alone. -/
def uploadRequestOf (st : ClientState) (file_path : String) : HttpRequest :=
  { url := base_url ++ "/document",
    headers := dictErase st.headers "Content-Type",
    payloadFields := [("file", .str file_path)],
    stream := false }

/-- Method `CodeGPTPlus.upload_document`, lines 367-397: missing file raises
`FileNotFoundError`; the response's `documentId` is repackaged as
`\x7b'id': ...\x7d`. -/
def upload_document (st : ClientState) (file_path : String)
    (fileExists : Bool) (net : HttpRequest → HttpResponse) :
    Except JudiniError Json × ClientState :=
  if ¬ fileExists then
    (.error (.fileNotFound file_path), st)
  else
    let resp := net (uploadRequestOf st file_path)
    if resp.status ≠ 200 then
      (.error (.transport resp.status resp.body), st)
    else
      match resp.parsed with
      | some (.obj fields) =>
        match jlookup fields "documentId" with
        | some v => (.ok (.obj [("id", v)]), st)
        | none => (.error (.decode resp.body), st)
      | _ => (.error (.decode resp.body), st)

/-! ### Helper notions for the stream decoder -/

/-- Whether a classified frame is a content fragment. -/
def isContent (p : Payload) : Bool :=
  match p with
  | .content _ _ => true
  | _ => false

/-- The chunk a frame contributes, assuming it classifies as content
(junk default otherwise). -/
def contentChunk (fmt : Format) (v : DataValue) : Chunk :=
  match classifyData v with
  | .content j t => chunkOf fmt j t
  | _ => .text ""

/-- A well-formed content frame carrying the text fragment `t`, as in the
spec's wire example. -/
def textFrame (t : String) : DataValue :=
  .json (.obj [("text", .str t)])

/-- The recognised in-band error frame carrying the message `m`. -/
def errFrame (m : String) : DataValue :=
  .json (.obj [("error", .str m)])

/-- The text carried by a chunk (structured chunks carry none). -/
def chunkText (c : Chunk) : String :=
  match c with
  | .text s => s
  | .json _ => ""

/-- Concatenation, in order, of the text carried by a list of chunks. -/
def concatChunks (cs : List Chunk) : String :=
  String.join (cs.map chunkText)

/-- Whether a call result is a raised `ValidationError`. -/
def resultIsValidation {α : Type} (r : Except JudiniError α) : Bool :=
  match r with
  | .error (.validation _) => true
  | _ => false

/-- Inverse of `msgJson` on one serialised message. -/
def decodeMsg (j : Json) : Option ChatMessage :=
  match j with
  | .obj [("role", .str r), ("content", .str c)] => some { role := r, content := c }
  | _ => none

/-- Inverse of `msgJson` on a list of serialised messages. -/
def decodeMsgList (js : List Json) : Option (List ChatMessage) :=
  match js with
  | [] => some []
  | j :: rest =>
    match decodeMsg j, decodeMsgList rest with
    | some m, some ms => some (m :: ms)
    | _, _ => none

/-- Inverse of the serialisation of the `messages` payload entry. -/
def decodeMessages (j : Json) : Option (List ChatMessage) :=
  match j with
  | .arr js => decodeMsgList js
  | _ => none

theorem classify_textFrame (t : String) :
    classifyData (textFrame t) = .content (Json.obj [("text", .str t)]) t := rfl

theorem classify_errFrame (m : String) :
    classifyData (errFrame m) = .err m := rfl

theorem handle_stream_append_content (fmt : Format) (vs rest : List DataValue)
    (h : ∀ v ∈ vs, isContent (classifyData v) = true) :
    handle_stream fmt (vs ++ rest) =
      (vs.map (contentChunk fmt) ++ (handle_stream fmt rest).1,
       (handle_stream fmt rest).2) := by
  induction vs with
  | nil => simp
  | cons v vs ih =>
    have hv := h v (by simp)
    have htail := ih (fun w hw => h w (by simp [hw]))
    cases hc : classifyData v with
    | done => simp [isContent, hc] at hv
    | err m => simp [isContent, hc] at hv
    | malformed => simp [isContent, hc] at hv
    | content j t =>
      simp [handle_stream, hc, htail, contentChunk]

/-- C1: a streamed body consisting of N well-formed content frames followed
by an in-band error frame yields exactly the N chunks of the content frames,
in arrival order, and then fails with the server-supplied error message; no
chunk is yielded after the error frame, whatever follows it. -/
theorem stream_error_after_n_chunks (fmt : Format) (vs : List DataValue)
    (m : String) (rest : List DataValue)
    (h : ∀ v ∈ vs, isContent (classifyData v) = true) :
    handle_stream fmt (vs ++ errFrame m :: rest) =
        (vs.map (contentChunk fmt), StreamOutcome.failed m)
      ∧ (vs.map (contentChunk fmt)).length = vs.length := by
  refine ⟨?_, by simp⟩
  rw [handle_stream_append_content fmt vs _ h]
  simp [handle_stream, classify_errFrame]

theorem stream_error_after_n_chunks_witness :
    handle_stream Format.text
        ([textFrame "a", textFrame "b"] ++ errFrame "boom" :: [textFrame "after"]) =
      ([Chunk.text "a", Chunk.text "b"], StreamOutcome.failed "boom") :=
  (stream_error_after_n_chunks Format.text [textFrame "a", textFrame "b"]
    "boom" [textFrame "after"] (by decide)).1

/-- C2: for a streaming body made of content frames carrying the fragments
`ts` (closed by the terminal marker), decoding with `format=text` yields
exactly those fragments in order and ends normally, and their concatenation
equals the string the non-streaming decode returns for an equivalent body
carrying the same content. -/
theorem stream_nonstream_equivalence (ts : List String) (raw : String) :
    handle_stream Format.text (ts.map textFrame ++ [DataValue.doneMarker]) =
        (ts.map Chunk.text, StreamOutcome.ok)
      ∧ handle_non_stream raw (some (Json.obj [("text", Json.str (String.join ts))]))
          Format.text = .ok (.text (String.join ts))
      ∧ concatChunks (ts.map Chunk.text) = String.join ts := by
  refine ⟨?_, rfl, ?_⟩
  · rw [handle_stream_append_content Format.text (ts.map textFrame) _ ?_]
    · have hdone : handle_stream Format.text [DataValue.doneMarker] = ([], .ok) := rfl
      rw [hdone]
      simp only [List.append_nil]
      congr 1
      induction ts with
      | nil => rfl
      | cons t ts ih => simp [contentChunk, classify_textFrame, chunkOf, ih]
    · intro v hv
      rcases List.mem_map.mp hv with ⟨t, _, rfl⟩
      simp [isContent, classify_textFrame]
  · have hmap : (ts.map Chunk.text).map chunkText = ts := by
      induction ts with
      | nil => rfl
      | cons t ts ih => simp [chunkText, ih]
    simp [concatChunks, hmap]

/-- C3: a malformed frame sitting between two well-formed content frames
contributes no chunk and does not abort the stream: exactly the two valid
frames' chunks are yielded and the stream ends normally. -/
theorem malformed_frame_skipped (fmt : Format) (v1 bad v2 : DataValue)
    (j1 j2 : Json) (t1 t2 : String)
    (h1 : classifyData v1 = .content j1 t1)
    (hb : classifyData bad = .malformed)
    (h2 : classifyData v2 = .content j2 t2) :
    handle_stream fmt [v1, bad, v2] =
      ([chunkOf fmt j1 t1, chunkOf fmt j2 t2], StreamOutcome.ok) := by
  simp [handle_stream, h1, hb, h2]

theorem malformed_frame_skipped_witness :
    handle_stream Format.text [textFrame "a", DataValue.invalid "not json", textFrame "b"] =
      ([Chunk.text "a", Chunk.text "b"], StreamOutcome.ok) :=
  malformed_frame_skipped Format.text (textFrame "a") (DataValue.invalid "not json")
    (textFrame "b") (Json.obj [("text", .str "a")]) (Json.obj [("text", .str "b")])
    "a" "b" rfl rfl rfl

/-- C4: on a well-formed non-streaming body the decoder returns exactly the
textual answer field as a plain string under `format=text` and the full
parsed structure unchanged under `format=json`; when the body is not valid
JSON, or the answer field is absent, it fails with a `DecodeError` carrying
the raw body. -/
theorem non_stream_decode_spec (raw : String) (j : Json) (t : String) :
    handle_non_stream raw none Format.text = .error (.decode raw)
      ∧ handle_non_stream raw none Format.json = .error (.decode raw)
      ∧ (getText j = some t →
          handle_non_stream raw (some j) Format.text = .ok (.text t))
      ∧ handle_non_stream raw (some j) Format.json = .ok (.json j)
      ∧ (getText j = none →
          handle_non_stream raw (some j) Format.text = .error (.decode raw)) := by
  refine ⟨rfl, rfl, ?_, rfl, ?_⟩ <;> intro h <;> simp [handle_non_stream, h]

theorem non_stream_decode_spec_witness :
    handle_non_stream "bad" (some (Json.obj [("text", Json.str "hi")]))
        Format.text = .ok (.text "hi")
      ∧ handle_non_stream "bad" (some Json.null) Format.text = .error (.decode "bad")
      ∧ handle_non_stream "bad" none Format.text = .error (.decode "bad") :=
  ⟨(non_stream_decode_spec "bad" (Json.obj [("text", Json.str "hi")]) "hi").2.2.1 rfl,
   (non_stream_decode_spec "bad" Json.null "hi").2.2.2.2 rfl,
   (non_stream_decode_spec "bad" Json.null "hi").1⟩

/-! ### Claims about `codegpt.py` itself -/

theorem handle_non_stream_error_is_decode (raw : String) (parsed : Option Json)
    (fmt : Format) (e : JudiniError)
    (h : handle_non_stream raw parsed fmt = .error e) : e = .decode raw := by
  cases parsed with
  | none =>
    simp only [handle_non_stream, Except.error.injEq] at h
    exact h.symm
  | some j =>
    cases fmt with
    | json => simp [handle_non_stream] at h
    | text =>
      cases hg : getText j with
      | none =>
        simp only [handle_non_stream, hg, Except.error.injEq] at h
        exact h.symm
      | some t => simp [handle_non_stream, hg] at h

/-- C5 counterexample: with valid arguments and a response whose status is
`201` — a 2xx success status — `chat_completion` still raises the transport
error, because the code tests `status_code != 200`, not "non-2xx". -/
theorem chat_raises_at_status_201 :
    (chat_completion { headers := [] } "agent" [{ role := "user", content := "hi" }]
        false "text"
        (fun _ => { status := 201, body := "created", parsed := some Json.null,
                    frames := [] })).1
      = .error (.transport 201 "created")
    ∧ 200 ≤ 201 ∧ 201 < 300 :=
  ⟨rfl, by decide, by decide⟩

/-- C5 (amended): with valid arguments, `chat_completion` raises the
transport error exactly when the response status differs from `200` (not
"non-2xx"); the error carries the status code and the raw body text, and a
non-200 response is never handed to either decoder — the outcome is the same
whatever the body parses to or what frames it carries. -/
theorem chat_transport_iff_status_ne_200 (st : ClientState) (aid : String)
    (msgs : List ChatMessage) (stream : Bool) (fmt : String)
    (resp : HttpResponse) (hm : msgs.length ≠ 0) (ha : aid ≠ "")
    (hf : fmt = "json" ∨ fmt = "text") :
    ((chat_completion st aid msgs stream fmt (fun _ => resp)).1
        = .error (.transport resp.status resp.body) ↔ resp.status ≠ 200)
    ∧ (resp.status ≠ 200 → ∀ parsed frames,
        (chat_completion st aid msgs stream fmt
            (fun _ => { status := resp.status, body := resp.body,
                        parsed := parsed, frames := frames })).1
          = .error (.transport resp.status resp.body)) := by
  have hm' : msgs ≠ [] := fun hnil => hm (by simp [hnil])
  have hcond : ¬ (¬ fmt = "json" ∧ ¬ fmt = "text") := fun hc => hf.elim hc.1 hc.2
  constructor
  · by_cases h200 : resp.status = 200
    · by_cases hs : stream
      · simp [chat_completion, hm', ha, hcond, h200, hs]
      · rcases hns : handle_non_stream resp.body resp.parsed (formatOf fmt) with e | a
        · have he := handle_non_stream_error_is_decode _ _ _ _ hns
          subst he
          simp [chat_completion, hm', ha, hcond, h200, hs, hns, Except.map]
        · simp [chat_completion, hm', ha, hcond, h200, hs, hns, Except.map]
    · simp [chat_completion, hm', ha, hcond, h200]
  · intro h200 parsed frames
    simp [chat_completion, hm', ha, hcond, h200]

theorem chat_transport_iff_status_ne_200_witness :
    ((chat_completion { headers := [] } "agent"
          [{ role := "user", content := "hi" }] false "text"
          (fun _ => { status := 500, body := "oops", parsed := none,
                      frames := [] })).1
        = .error (.transport 500 "oops") ↔ (500 : Nat) ≠ 200)
    ∧ (chat_completion { headers := [] } "agent"
          [{ role := "user", content := "hi" }] false "text"
          (fun _ => { status := 500, body := "oops",
                      parsed := some Json.null, frames := [] })).1
        = .error (.transport 500 "oops") :=
  ⟨(chat_transport_iff_status_ne_200 { headers := [] } "agent"
      [{ role := "user", content := "hi" }] false "text"
      { status := 500, body := "oops", parsed := none, frames := [] }
      (by decide) (by decide) (Or.inr rfl)).1,
   (chat_transport_iff_status_ne_200 { headers := [] } "agent"
      [{ role := "user", content := "hi" }] false "text"
      { status := 500, body := "oops", parsed := none, frames := [] }
      (by decide) (by decide) (Or.inr rfl)).2 (by decide) (some Json.null) []⟩

/-- C6: an empty messages list, an empty agent id, or a format outside
the two accepted values makes `chat_completion` raise a `ValidationError`
before any network request: the result is a validation error and is
completely independent of the network oracle. -/
theorem chat_validation_before_network (st : ClientState) (aid : String)
    (msgs : List ChatMessage) (stream : Bool) (fmt : String)
    (h : msgs = [] ∨ aid = "" ∨ (fmt ≠ "json" ∧ fmt ≠ "text")) :
    (∀ net net', chat_completion st aid msgs stream fmt net
        = chat_completion st aid msgs stream fmt net')
    ∧ ∀ net, resultIsValidation (chat_completion st aid msgs stream fmt net).1 = true := by
  have key : ∀ net, chat_completion st aid msgs stream fmt net
      = chat_completion st aid msgs stream fmt (fun _ => ⟨0, "", none, []⟩)
      ∧ resultIsValidation (chat_completion st aid msgs stream fmt net).1 = true := by
    intro net
    rcases h with h | h | h
    · subst h; exact ⟨rfl, rfl⟩
    · subst h
      by_cases hm : msgs.length = 0
      · simp [chat_completion, hm, resultIsValidation]
      · simp [chat_completion, hm, resultIsValidation]
    · have hc : ¬ (fmt = "json" ∨ fmt = "text") := not_or.mpr h
      by_cases hm : msgs.length = 0
      · simp [chat_completion, hm, resultIsValidation]
      · by_cases haid : aid = ""
        · simp [chat_completion, hm, haid, resultIsValidation]
        · simp [chat_completion, hm, haid, hc, resultIsValidation]
  exact ⟨fun net net' => (key net).1.trans (key net').1.symm, fun net => (key net).2⟩

theorem chat_validation_before_network_witness :
    resultIsValidation (chat_completion { headers := [] } "agent" [] false "text"
        (fun _ => { status := 200, body := "", parsed := none, frames := [] })).1
      = true :=
  (chat_validation_before_network { headers := [] } "agent" [] false "text"
    (Or.inl rfl)).2 _

/-- C7: the serialised request payload carries the caller's messages under
the `messages` key exactly as supplied — the serialisation is invertible, so
no message is reordered, inserted, or dropped. -/
theorem messages_preserved_in_payload (aid : String) (msgs : List ChatMessage)
    (stream : Bool) (fmt : String) :
    jlookup (chatPayloadFields aid msgs stream fmt) "messages"
        = some (Json.arr (msgs.map msgJson))
      ∧ decodeMessages (Json.arr (msgs.map msgJson)) = some msgs := by
  refine ⟨rfl, ?_⟩
  simp only [decodeMessages]
  induction msgs with
  | nil => rfl
  | cons m ms ih => cases m; simp [decodeMsgList, decodeMsg, msgJson, ih]

/-- C8: the serialised payload always carries `format = "json"` and the
whole request is independent of the caller's `format` argument; that
argument only selects the local decoding mode (text extraction versus the
structured value). -/
theorem wire_format_always_json (st : ClientState) (aid : String)
    (msgs : List ChatMessage) (stream : Bool) (fmt fmt' : String) :
    jlookup (chatPayloadFields aid msgs stream fmt) "format"
        = some (Json.str "json")
      ∧ chatRequestOf st aid msgs stream fmt = chatRequestOf st aid msgs stream fmt'
      ∧ formatOf "text" = Format.text ∧ formatOf "json" = Format.json :=
  ⟨rfl, rfl, rfl, rfl⟩

theorem strField_falsy (key : String) (v : Option String)
    (h : pyTruthyStr v = false) : strField key v = [] := by
  cases v with
  | none => rfl
  | some s =>
    simp only [pyTruthyStr, bne_eq_false_iff_eq] at h
    simp [strField, h]

theorem intField_falsy (key : String) (v : Option Int)
    (h : pyTruthyInt v = false) : intField key v = [] := by
  cases v with
  | none => rfl
  | some n =>
    simp only [pyTruthyInt, bne_eq_false_iff_eq] at h
    simp [intField, h]

theorem boolField_falsy (key : String) (v : Option Bool)
    (h : pyTruthyBool v = false) : boolField key v = [] := by
  cases v with
  | none => rfl
  | some b =>
    simp only [pyTruthyBool] at h
    simp [boolField, h]

/-- C9: `update_agent` includes an optional parameter only when Python finds
it truthy, so a call in which every supplied value is falsy — for example
`is_public=False` together with `topk=0` — produces an empty payload and
raises the "at least one parameter" `ValidationError` independently of the
network oracle, even though the caller did supply parameters. -/
theorem update_agent_falsy_params_omitted (st : ClientState) (agent_id : String)
    (name model prompt welcome : Option String) (topk temperature : Option Int)
    ( is_public : Option Bool) (pincode : Option String)
    (hname : pyTruthyStr name = false) (hmodel : pyTruthyStr model = false)
    (hprompt : pyTruthyStr prompt = false) (hwelcome : pyTruthyStr welcome = false)
    (htopk : pyTruthyInt topk = false) (htemp : pyTruthyInt temperature = false)
    (hpub : pyTruthyBool is_public = false) (hpin : pyTruthyStr pincode = false) :
    update_agent_payload name model prompt welcome topk temperature is_public pincode = []
      ∧ (∀ net net',
          update_agent st agent_id name model prompt welcome topk temperature is_public pincode net
            = update_agent st agent_id name model prompt welcome topk temperature is_public pincode net')
      ∧ ∀ net, resultIsValidation
          (update_agent st agent_id name model prompt welcome topk temperature is_public pincode net).1
            = true := by
  have hpay : update_agent_payload name model prompt welcome topk temperature is_public pincode = [] := by
    simp [update_agent_payload, strField_falsy _ _ hname, strField_falsy _ _ hmodel,
      strField_falsy _ _ hprompt, strField_falsy _ _ hwelcome,
      intField_falsy _ _ htopk, intField_falsy _ _ htemp,
      boolField_falsy _ _ hpub, strField_falsy _ _ hpin]
  have key : ∀ net,
      update_agent st agent_id name model prompt welcome topk temperature is_public pincode net
        = update_agent st agent_id name model prompt welcome topk temperature is_public pincode
            (fun _ => ⟨0, "", none, []⟩)
      ∧ resultIsValidation
          (update_agent st agent_id name model prompt welcome topk temperature is_public pincode net).1
            = true := by
    intro net
    by_cases haid : agent_id = ""
    · simp [update_agent, haid, resultIsValidation]
    · simp [update_agent, haid, hpay, resultIsValidation]
  exact ⟨hpay, fun net net' => (key net).1.trans (key net').1.symm, fun net => (key net).2⟩

theorem update_agent_falsy_params_omitted_witness :
    update_agent_payload none none (some "") none (some 0) none (some false) none = []
      ∧ resultIsValidation (update_agent { headers := [] } "agent-1" none none (some "")
          none (some 0) none (some false) none
          (fun _ => { status := 200, body := "", parsed := none, frames := [] })).1
        = true :=
  ⟨(update_agent_falsy_params_omitted { headers := [] } "agent-1" none none (some "")
      none (some 0) none (some false) none
      rfl rfl (by decide) rfl (by decide) rfl rfl rfl).1,
   (update_agent_falsy_params_omitted { headers := [] } "agent-1" none none (some "")
      none (some 0) none (some false) none
      rfl rfl (by decide) rfl (by decide) rfl rfl rfl).2.2 _⟩

/-- C10: no operation mutates `self.headers`: a chat completion and a
document upload both leave the client's header state exactly as constructed,
while the requests they send use a copy — with `media_type` added for chat,
and with `Content-Type` deleted for upload. -/
theorem headers_never_mutated (st : ClientState) (aid : String)
    (msgs : List ChatMessage) (stream : Bool) (fmt : String)
    (net unet : HttpRequest → HttpResponse) (fp : String) (fileExists : Bool) :
    (chat_completion st aid msgs stream fmt net).2 = st
      ∧ (upload_document st fp fileExists unet).2 = st
      ∧ (chatRequestOf st aid msgs stream fmt).headers
          = dictInsert st.headers "media_type" "text/event-stream"
      ∧ (uploadRequestOf st fp).headers = dictErase st.headers "Content-Type" := by
  refine ⟨?_, ?_, rfl, rfl⟩
  · unfold chat_completion
    repeat' first | rfl | (dsimp only) | split
  · unfold upload_document
    repeat' first | rfl | (dsimp only) | split

end Judini
